import Mathlib

/-!
Shallow embedding of src/halftime_bot.py (NBA halftime Discord bot) and proofs
about its polling / deduplication loop.

Modelling conventions:
- Machine time is modelled in whole seconds (Int); local calendar days are
  modelled as Int values compared for equality, exactly as the Python code only
  ever compares date.today() results for equality.
- A game record (ESPN event JSON) is modelled by the fields the code reads:
  its id, its start instant (already converted to local time, as
  parse_event_datetime_local does; None when the "date" field is absent), its
  away and home competitor entries (get_home_away extracts these from the
  single competition object), and its status type object.
- The two outbound HTTP effects are modelled explicitly: fetch_scoreboard is an
  input to each tick (none = the GET raised), and send_discord consumes a queue
  of delivery outcomes (false = non-2xx, so raise_for_status raises) and logs
  each successfully delivered message.  World.halftimeLog and World.schedCount
  are observation-only fields recording, respectively, the game ids whose
  halftime alert was actually delivered and the number of schedule summaries
  actually delivered; they are written exactly at the successful send sites.
- Python exceptions are modelled by a `raised` flag threaded through each step;
  mutations made before a raise persist, exactly as in Python.
- The module references two names it never binds: DISCORD_WEBHOOK (lines 28 and
  151; the environment value is bound to WEBHOOK on line 8) and PING_USER_ID
  (lines 144 and 154; its assignment on line 14 is commented out).  Evaluating
  those expressions raises NameError in Python.  The literal behaviour is
  modelled at the end of the definitions (module_globals, main_validate,
  startup_message, halftime_message); the loop-level model uses the message
  bodies without the unbound interpolations, since no claim about the loop
  depends on the exact text.
-/

namespace HalftimeBot

/-- Competitor entry as read by the code: nested team displayName and an
optional score (format_live_line defaults a missing score to "0"). -/
structure Team where
  displayName : String
  score : Option String
deriving DecidableEq

/-- Status type object: optional name code and optional free-text detail. -/
structure StatusType where
  name : Option String
  detail : Option String
deriving DecidableEq

/-- Game record, holding the fields of an ESPN event that the code reads.
date is the start instant converted to local time by
parse_event_datetime_local, none when the raw field is absent. -/
structure Event where
  id : Option String
  date : Option Int
  away : Team
  home : Team
  status : StatusType
deriving DecidableEq

/-- Polling cadence, line 15 of the source. -/
def POLL_SECONDS : Nat := 60

/-- Translation of is_halftime (lines 80-82): status name equals
STATUS_HALFTIME or status detail equals "Halftime". -/
def is_halftime (e : Event) : Bool :=
  (e.status.name == some "STATUS_HALFTIME") || (e.status.detail == some "Halftime")

/-- Translation of format_time_until (lines 56-72).  The Python code computes
seconds = int((start_local - now).total_seconds()); with time modelled in whole
seconds this is start_local - now.  Integer division on nonnegative operands
agrees between Python // and Lean Int division. -/
def format_time_until (start_local now : Int) : String :=
  let seconds := start_local - now
  if seconds ≤ 0 then
    "started"
  else
    let minutes := (seconds + 59) / 60
    let hours := minutes / 60
    let mins := minutes % 60
    if hours = 0 then "in " ++ toString mins ++ "m"
    else if mins = 0 then "in " ++ toString hours ++ "h"
    else "in " ++ toString hours ++ "h " ++ toString mins ++ "m"

/-- Two-digit zero padding, for the %M part of strftime. -/
def pad2 (n : Int) : String :=
  if n < 10 then "0" ++ toString n else toString n

/-- Translation of format_start_time (lines 75-77): strftime "%-I:%M %p" on
the local start instant, modelled from local epoch seconds. -/
def format_start_time (start_local : Int) : String :=
  let secOfDay := start_local % 86400
  let h24 := secOfDay / 3600
  let m := (secOfDay % 3600) / 60
  let h12 := if h24 % 12 = 0 then (12 : Int) else h24 % 12
  let ampm := if h24 < 12 then "AM" else "PM"
  toString h12 ++ ":" ++ pad2 m ++ " " ++ ampm

/-- Translation of format_live_line (lines 85-90); missing scores default to
"0" and a missing status detail to "Unknown". -/
def format_live_line (e : Event) : String :=
  e.away.displayName ++ " " ++ e.away.score.getD "0" ++ " – " ++
  e.home.displayName ++ " " ++ e.home.score.getD "0" ++ " (" ++
  e.status.detail.getD "Unknown" ++ ")"

/-- Translation of the local sort_key in post_schedule_once (lines 107-109):
the start timestamp, with undated events sorting last (float inf). -/
def sort_key (e : Event) : Option Int := e.date

/-- Comparison induced by sort_key with none as plus infinity. -/
def sortLE (a b : Event) : Bool :=
  match sort_key a, sort_key b with
  | some x, some y => x ≤ y
  | some _, none => true
  | none, some _ => false
  | none, none => true

/-- Translation of sorted(events, key=sort_key), line 111; Python sorted is a
stable merge sort. -/
def sortEvents (es : List Event) : List Event := es.mergeSort sortLE

/-- Persistent per-process state: alerted_games (line 18), last_day (line 19)
and posted_schedule_for_day (line 20).  The Python set is modelled as a list
queried with contains. -/
structure BotState where
  alerted : List String
  last_day : Int
  posted_schedule_for_day : Bool
deriving DecidableEq

/-- Environment of one tick: the pending delivery outcomes (false means the
webhook POST returns non-2xx so raise_for_status raises; an exhausted queue
means deliveries succeed), the successfully delivered message texts in order,
and two observation-only fields: the game ids whose halftime alert was
delivered, and how many schedule summaries were delivered. -/
structure World where
  pending : List Bool
  delivered : List String
  halftimeLog : List String
  schedCount : Nat
deriving DecidableEq

/-- Translation of send_discord (lines 23-29): POST the message; on success
the message is delivered, on non-2xx raise_for_status raises (returned flag
false). -/
def send_discord (msg : String) (w : World) : World × Bool :=
  match w.pending with
  | [] => ({ w with delivered := w.delivered ++ [msg] }, true)
  | b :: rest =>
    if b then ({ w with pending := rest, delivered := w.delivered ++ [msg] }, true)
    else ({ w with pending := rest }, false)

/-- Result of one Python statement block: the state, the world, and whether an
exception is propagating.  Mutations made before a raise persist. -/
structure StepRes where
  st : BotState
  w : World
  raised : Bool
deriving DecidableEq

/-- Header line of the schedule message (lines 102 and 125). -/
def SCHEDULE_HEADER : String := "🗓️ **Today\u0027s NBA schedule**"

/-- One schedule line per event (lines 114-123). -/
def schedule_line (now : Int) (e : Event) : String :=
  match e.date with
  | some start_local =>
      format_start_time start_local ++ " (" ++ format_time_until start_local now ++ ") — " ++
      e.away.displayName ++ " @ " ++ e.home.displayName
  | none => "TBD — " ++ e.away.displayName ++ " @ " ++ e.home.displayName

/-- Translation of post_schedule_once (lines 93-127).  now is the current
clock reading used by format_time_until inside the schedule lines.  The flag
is set only after the send succeeded; a raise leaves the state unchanged. -/
def post_schedule_once (now : Int) (events : List Event) (st : BotState) (w : World) : StepRes :=
  if st.posted_schedule_for_day then ⟨st, w, false⟩
  else if events.isEmpty then
    let s := send_discord (SCHEDULE_HEADER ++ "\nNo NBA games found for today.") w
    if s.2 then ⟨{ st with posted_schedule_for_day := true },
                 { s.1 with schedCount := s.1.schedCount + 1 }, false⟩
    else ⟨st, s.1, true⟩
  else
    let msg := SCHEDULE_HEADER ++ "\n" ++
      String.intercalate "\n" ((sortEvents events).map (schedule_line now))
    let s := send_discord msg w
    if s.2 then ⟨{ st with posted_schedule_for_day := true },
                 { s.1 with schedCount := s.1.schedCount + 1 }, false⟩
    else ⟨st, s.1, true⟩

/-- Body of a halftime alert.  Line 144 of the source prepends an
interpolation of the unbound name PING_USER_ID to this text; evaluating that
f-string raises NameError (see halftime_message below for the literal model).
The loop model uses the body without the unbound interpolation. -/
def halftime_msg (e : Event) : String := "🏀 **HALFTIME**\n" ++ format_live_line e

/-- Translation of the alert loop of check_games (lines 138-145): skip records
without an id; for a halftime record not yet alerted, send the alert and only
then add the id to alerted_games; a delivery failure raises out of the loop,
keeping all earlier additions. -/
def halftime_scan : List Event → BotState → World → StepRes
  | [], st, w => ⟨st, w, false⟩
  | e :: rest, st, w =>
    match e.id with
    | none => halftime_scan rest st w
    | some gid =>
      if is_halftime e && !(st.alerted.contains gid) then
        let s := send_discord (halftime_msg e) w
        if s.2 then
          halftime_scan rest { st with alerted := st.alerted ++ [gid] }
            { s.1 with halftimeLog := s.1.halftimeLog ++ [gid] }
        else ⟨st, s.1, true⟩
      else halftime_scan rest st w

/-- Translation of check_games (lines 130-145): fetch the scoreboard (fetched
is none when the GET or JSON parse raised), post the schedule once, then run
the halftime alert loop. -/
def check_games (fetched : Option (List Event)) (now : Int) (st : BotState) (w : World) : StepRes :=
  match fetched with
  | none => ⟨st, w, true⟩
  | some events =>
    let r := post_schedule_once now events st w
    if r.raised then r
    else halftime_scan events r.st r.w

/-- Day reset message, line 166. -/
def RESET_MSG : String := "🔄 New day — reset alerted games."

/-- Inputs consumed by one iteration of the steady-state loop: the current
local date, the current clock reading, the fetch result and the queue of
delivery outcomes for the sends of this iteration. -/
structure TickInput where
  today : Int
  now : Int
  fetch : Option (List Event)
  outcomes : List Bool
deriving DecidableEq

/-- Day rollover branch of the loop body (lines 162-167) followed by the
unconditional check (line 169): clear alerted_games, update last_day, reset
the schedule flag, send the reset message, then run check_games, then fall
through to the unconditional check_games.  Both check_games calls of one
iteration fetch the same scoreboard, modelled by the single fetch field. -/
def rollover_tick (inp : TickInput) : BotState × World :=
  let st1 : BotState := ⟨[], inp.today, false⟩
  let s := send_discord RESET_MSG ⟨inp.outcomes, [], [], 0⟩
  if s.2 then
    let r := check_games inp.fetch inp.now st1 s.1
    if r.raised then (r.st, r.w)
    else
      let r2 := check_games inp.fetch inp.now r.st r.w
      (r2.st, r2.w)
  else (st1, s.1)

/-- One iteration of the while-True loop (lines 159-173): the try block runs
the rollover branch when the date changed, then the unconditional check_games;
any exception is caught by the except clause on line 170, which logs it and
falls through to the sleep, keeping whatever state was mutated. -/
def tick (inp : TickInput) (st : BotState) : BotState × World :=
  if inp.today ≠ st.last_day then rollover_tick inp
  else
    let r := check_games inp.fetch inp.now st ⟨inp.outcomes, [], [], 0⟩
    (r.st, r.w)

/-- Steady-state loop over a list of tick inputs, returning the final state,
the concatenated log of delivered halftime alert ids, and the total number of
delivered schedule summaries. -/
def run : List TickInput → BotState → BotState × List String × Nat
  | [], st => (st, [], 0)
  | inp :: rest, st =>
    let t := tick inp st
    let r := run rest t.1
    (r.1, t.2.halftimeLog ++ r.2.1, t.2.schedCount + r.2.2)

/-- Body of the startup announcement.  Line 154 of the source appends an
interpolation of the unbound name PING_USER_ID to this text; evaluating that
f-string raises NameError (see startup_message below for the literal model). -/
def STARTUP_MSG : String := "✅ Halftime bot started."

/-- Translation of main (lines 148-173) after webhook validation: the startup
announcement (line 154) and the first check_games (line 157) run before the
while loop, outside any exception handler, so a raise there propagates and the
process terminates (modelled as Except.error); afterwards the loop body
swallows every exception, so the loop itself always produces a result. -/
def main_run (startInp : TickInput) (loopInps : List TickInput) :
    Except Unit (BotState × List String × Nat) :=
  let st0 : BotState := ⟨[], startInp.today, false⟩
  let w0 : World := ⟨startInp.outcomes, [], [], 0⟩
  let s := send_discord STARTUP_MSG w0
  if s.2 then
    let r := check_games startInp.fetch startInp.now st0 s.1
    if r.raised then Except.error ()
    else Except.ok (run loopInps r.st)
  else Except.error ()

/-! Literal model of the unbound-name behaviour of the module.  Python resolves
a global name at evaluation time against the names actually bound in the
module; referencing an unbound one raises NameError. -/

/-- Names bound at module level in src/halftime_bot.py: the imports (lines
1-5), WEBHOOK (line 8), ESPN_URL (line 11), POLL_SECONDS (line 15), the three
state globals (lines 18-20) and the function definitions.  PING_USER_ID (line
14 is a comment) and DISCORD_WEBHOOK are not among them. -/
def module_globals : List String :=
  ["time", "requests", "datetime", "date", "timezone", "os", "load_dotenv",
   "WEBHOOK", "ESPN_URL", "POLL_SECONDS",
   "alerted_games", "last_day", "posted_schedule_for_day",
   "send_discord", "fetch_scoreboard", "get_home_away",
   "parse_event_datetime_local", "format_time_until", "format_start_time",
   "is_halftime", "format_live_line", "post_schedule_once", "check_games",
   "main"]

/-- Whether a global name is bound in the module. -/
def name_defined (n : String) : Bool := module_globals.contains n

/-- Python exceptions relevant to the startup path. -/
inductive PyErr where
  | nameError (n : String)
  | valueError
  | attributeError
deriving DecidableEq

/-- Literal translation of the guard opening main (line 151):
"if not DISCORD_WEBHOOK.startswith(...)".  The name DISCORD_WEBHOOK is read
first; it is unbound (the environment value was bound to WEBHOOK on line 8),
so NameError is raised whatever the configured value is.  The remaining
branches model what the guard would do on the configured value if the name
resolved to it: a missing value (None) has no startswith attribute, a value
without the Discord webhook URL start raises ValueError (line 152), and a
well-formed value falls through to the startup announcement. -/
def main_validate (webhook : Option String) : Except PyErr Unit :=
  if ¬ name_defined "DISCORD_WEBHOOK" then Except.error (PyErr.nameError "DISCORD_WEBHOOK")
  else
    match webhook with
    | none => Except.error PyErr.attributeError
    | some url =>
      if ¬ url.startsWith "https://discord.com/api/webhooks/" then Except.error PyErr.valueError
      else Except.ok ()

/-- Value of the global PING_USER_ID: none, because its assignment (line 14)
is commented out, so the name is never bound. -/
def PING_USER_ID_binding : Option String :=
  if name_defined "PING_USER_ID" then some "428747562686611457" else none

/-- Literal translation of the f-string on line 154:
"✅ Halftime bot started. <@\x7bPING_USER_ID\x7d>".  Interpolating the unbound
name raises NameError, so no startup announcement is ever constructed. -/
def startup_message : Except PyErr String :=
  match PING_USER_ID_binding with
  | some uid => Except.ok ("✅ Halftime bot started. <@" ++ uid ++ ">")
  | none => Except.error (PyErr.nameError "PING_USER_ID")

/-- Literal translation of the f-string on line 144:
"<@\x7bPING_USER_ID\x7d>\n🏀 **HALFTIME**\n\x7bformat_live_line(event)\x7d".
Interpolating the unbound name raises NameError. -/
def halftime_message (e : Event) : Except PyErr String :=
  match PING_USER_ID_binding with
  | some uid => Except.ok ("<@" ++ uid ++ ">\n🏀 **HALFTIME**\n" ++ format_live_line e)
  | none => Except.error (PyErr.nameError "PING_USER_ID")

/-- Rendering of a whole-minute countdown as written in the specification:
hours+minutes, the hours term omitted when the hour part is zero and the
minutes term omitted when the minute part is zero.  Used to state the claim
about format_time_until against the ceiling of the remaining seconds. -/
def spec_hm (minutes : Int) : String :=
  let hours := minutes / 60
  let mins := minutes % 60
  if hours = 0 then "in " ++ toString mins ++ "m"
  else if mins = 0 then "in " ++ toString hours ++ "h"
  else "in " ++ toString hours ++ "h " ++ toString mins ++ "m"

/-- Concrete halftime game record used by the witnesses. -/
def sampleHalftimeEvent : Event :=
  ⟨some "401", some 1000, ⟨"Lakers", some "55"⟩, ⟨"Celtics", some "60"⟩,
   ⟨some "STATUS_HALFTIME", some "Halftime"⟩⟩

/-- Concrete scheduled (not yet started) game record used by the witnesses. -/
def sampleScheduledEvent : Event :=
  ⟨some "402", some 9000, ⟨"Knicks", none⟩, ⟨"Heat", none⟩,
   ⟨some "STATUS_SCHEDULED", some "7:30 PM"⟩⟩

/-! Helper lemmas. -/

theorem contains_iff_mem (l : List String) (a : String) : l.contains a = true ↔ a ∈ l := by
  simp

theorem send_discord_halftimeLog (m : String) (w : World) :
    (send_discord m w).1.halftimeLog = w.halftimeLog := by
  rcases w with ⟨p, d, hl, sc⟩
  cases p with
  | nil => rfl
  | cons b rest => cases b <;> rfl

theorem send_discord_schedCount (m : String) (w : World) :
    (send_discord m w).1.schedCount = w.schedCount := by
  rcases w with ⟨p, d, hl, sc⟩
  cases p with
  | nil => rfl
  | cons b rest => cases b <;> rfl

theorem send_discord_delivered_pre (m : String) (w : World) :
    w.delivered <+: (send_discord m w).1.delivered := by
  rcases w with ⟨p, d, hl, sc⟩
  cases p with
  | nil => exact ⟨[m], rfl⟩
  | cons b rest =>
    cases b
    · exact ⟨[], by simp [send_discord]⟩
    · exact ⟨[m], by simp [send_discord]⟩

/-- Unfolding the alert loop on an empty list. -/
theorem halftime_scan_nil (st : BotState) (w : World) :
    halftime_scan [] st w = ⟨st, w, false⟩ := rfl

/-- Unfolding the alert loop on a record without an id: the record is
skipped. -/
theorem halftime_scan_cons_noid (e : Event) (rest : List Event) (st : BotState) (w : World)
    (he : e.id = none) :
    halftime_scan (e :: rest) st w = halftime_scan rest st w := by
  simp only [halftime_scan, he]

/-- Unfolding the alert loop on a record that is not at halftime or is already
alerted: no send happens. -/
theorem halftime_scan_cons_skip (e : Event) (rest : List Event) (st : BotState) (w : World)
    (gid : String) (he : e.id = some gid)
    (hcond : (is_halftime e && !(st.alerted.contains gid)) = false) :
    halftime_scan (e :: rest) st w = halftime_scan rest st w := by
  simp only [halftime_scan, he]
  rw [if_neg (by simp only [hcond]; exact Bool.false_ne_true)]

/-- Unfolding the alert loop on an alertable record whose delivery raises:
the loop aborts, the state is unchanged, only the send outcome is consumed. -/
theorem halftime_scan_cons_fail (e : Event) (rest : List Event) (st : BotState) (w : World)
    (gid : String) (he : e.id = some gid)
    (hcond : (is_halftime e && !(st.alerted.contains gid)) = true)
    (hok : (send_discord (halftime_msg e) w).2 = false) :
    halftime_scan (e :: rest) st w = ⟨st, (send_discord (halftime_msg e) w).1, true⟩ := by
  simp only [halftime_scan, he]
  rw [if_pos hcond, if_neg (by simp [hok])]

/-- Unfolding the alert loop on an alertable record whose delivery succeeds:
the id is added to alerted_games and to the delivered-alert log. -/
theorem halftime_scan_cons_alert (e : Event) (rest : List Event) (st : BotState) (w : World)
    (gid : String) (he : e.id = some gid)
    (hcond : (is_halftime e && !(st.alerted.contains gid)) = true)
    (hok : (send_discord (halftime_msg e) w).2 = true) :
    halftime_scan (e :: rest) st w =
      halftime_scan rest ⟨st.alerted ++ [gid], st.last_day, st.posted_schedule_for_day⟩
        ⟨(send_discord (halftime_msg e) w).1.pending,
         (send_discord (halftime_msg e) w).1.delivered,
         w.halftimeLog ++ [gid], w.schedCount⟩ := by
  simp only [halftime_scan, he]
  rw [if_pos hcond, if_pos hok, send_discord_halftimeLog, send_discord_schedCount]

/-- Combined properties of the halftime alert loop, for a fixed game id g:
the loop leaves last_day, the schedule flag and the schedule counter alone;
membership in alerted_games is monotone; the delivered-alert log is monotone;
an id already in alerted_games is never re-alerted; at most one alert for g is
delivered in one pass; an alert delivered for g implies g ends up in
alerted_games; and g newly in alerted_games implies its alert was delivered. -/
theorem halftime_scan_spec (g : String) (es : List Event) :
    ∀ (st : BotState) (w : World),
      (halftime_scan es st w).st.last_day = st.last_day ∧
      (halftime_scan es st w).st.posted_schedule_for_day = st.posted_schedule_for_day ∧
      (halftime_scan es st w).w.schedCount = w.schedCount ∧
      (g ∈ st.alerted → g ∈ (halftime_scan es st w).st.alerted) ∧
      w.halftimeLog.count g ≤ (halftime_scan es st w).w.halftimeLog.count g ∧
      (g ∈ st.alerted →
        (halftime_scan es st w).w.halftimeLog.count g = w.halftimeLog.count g) ∧
      ((halftime_scan es st w).w.halftimeLog.count g ≤
        w.halftimeLog.count g + (if g ∈ st.alerted then 0 else 1)) ∧
      (w.halftimeLog.count g < (halftime_scan es st w).w.halftimeLog.count g →
        g ∈ (halftime_scan es st w).st.alerted) ∧
      (g ∈ (halftime_scan es st w).st.alerted →
        g ∈ st.alerted ∨ w.halftimeLog.count g < (halftime_scan es st w).w.halftimeLog.count g) := by
  induction es with
  | nil =>
    intro st w
    simp [halftime_scan]
  | cons e rest ih =>
    intro st w
    rcases he : e.id with _ | gid
    · rw [halftime_scan_cons_noid e rest st w he]
      exact ih st w
    · by_cases hcond : (is_halftime e && !(st.alerted.contains gid)) = true
      · have hgid : gid ∉ st.alerted := by
          intro hmem
          have hc := (contains_iff_mem st.alerted gid).mpr hmem
          rw [hc] at hcond
          simp at hcond
        by_cases hok : (send_discord (halftime_msg e) w).2 = true
        · -- alert attempted and delivered: recurse on the extended state
          rw [halftime_scan_cons_alert e rest st w gid he hcond hok]
          obtain ⟨ih1, ih2, ih3, ih4, ih5, ih6, ih7, ih8, ih9⟩ :=
            ih ⟨st.alerted ++ [gid], st.last_day, st.posted_schedule_for_day⟩
              ⟨(send_discord (halftime_msg e) w).1.pending,
               (send_discord (halftime_msg e) w).1.delivered,
               w.halftimeLog ++ [gid], w.schedCount⟩
          dsimp only at ih1 ih2 ih3 ih4 ih5 ih6 ih7 ih8 ih9
          rw [List.count_append] at ih5 ih6 ih7 ih8 ih9
          by_cases hg : g = gid
          · subst hg
            have hk : List.count g [g] = 1 := by simp
            rw [hk] at ih5 ih6 ih7 ih8 ih9
            have hmem2 : g ∈ st.alerted ++ [g] := List.mem_append.mpr (Or.inr (by simp))
            have hfin := ih4 hmem2
            have hcnt_eq := ih6 hmem2
            refine ⟨ih1, ih2, ih3, fun _ => hfin, by omega, ?_, ?_, ?_, ?_⟩
            · intro hmem; exact absurd hmem hgid
            · rw [if_neg hgid]; omega
            · intro _; exact hfin
            · intro _; right; omega
          · have hk : List.count g [gid] = 0 := by
              rw [List.count_singleton']
              exact if_neg (fun h => hg h.symm)
            rw [hk] at ih5 ih6 ih7 ih8 ih9
            have hmem_iff : g ∈ st.alerted ++ [gid] ↔ g ∈ st.alerted := by
              rw [List.mem_append]
              constructor
              · rintro (h | h)
                · exact h
                · exact absurd (by simpa using h) hg
              · exact Or.inl
            refine ⟨ih1, ih2, ih3, fun h => ih4 (hmem_iff.mpr h), by omega, ?_, ?_, ?_, ?_⟩
            · intro h
              have := ih6 (hmem_iff.mpr h)
              omega
            · by_cases hm : g ∈ st.alerted
              · have := ih6 (hmem_iff.mpr hm)
                rw [if_pos hm]
                omega
              · have hm2 : g ∉ st.alerted ++ [gid] := fun h => hm (hmem_iff.mp h)
                rw [if_neg hm2] at ih7
                rw [if_neg hm]
                omega
            · intro h; exact ih8 (by omega)
            · intro h
              rcases ih9 h with h2 | h2
              · exact Or.inl (hmem_iff.mp h2)
              · right; omega
        · -- alert attempted, delivery raised: loop aborts with state unchanged
          rw [halftime_scan_cons_fail e rest st w gid he hcond
            (by simpa using hok)]
          dsimp only
          rw [send_discord_halftimeLog, send_discord_schedCount]
          simp
      · -- no alert for this record
        rw [halftime_scan_cons_skip e rest st w gid he (by simpa using hcond)]
        exact ih st w

/-- Combined properties of the schedule poster: it never touches
alerted_games, last_day or the delivered-alert log; the schedule counter is
monotone and grows by at most one; with the flag already set it does nothing;
a delivered summary implies the flag ends up set; the flag newly set implies a
summary was delivered; and a raise leaves the state unchanged. -/
theorem post_schedule_once_spec (now : Int) (events : List Event) (st : BotState) (w : World) :
    (post_schedule_once now events st w).st.alerted = st.alerted ∧
    (post_schedule_once now events st w).st.last_day = st.last_day ∧
    (post_schedule_once now events st w).w.halftimeLog = w.halftimeLog ∧
    w.schedCount ≤ (post_schedule_once now events st w).w.schedCount ∧
    (st.posted_schedule_for_day = true → post_schedule_once now events st w = ⟨st, w, false⟩) ∧
    ((post_schedule_once now events st w).w.schedCount ≤
      w.schedCount + (if st.posted_schedule_for_day then 0 else 1)) ∧
    (w.schedCount < (post_schedule_once now events st w).w.schedCount →
      (post_schedule_once now events st w).st.posted_schedule_for_day = true) ∧
    ((post_schedule_once now events st w).st.posted_schedule_for_day = true →
      st.posted_schedule_for_day = true ∨
        w.schedCount < (post_schedule_once now events st w).w.schedCount) ∧
    ((post_schedule_once now events st w).raised = true →
      (post_schedule_once now events st w).st = st) := by
  by_cases hp : st.posted_schedule_for_day = true
  · simp [post_schedule_once, hp]
  · have hp2 : st.posted_schedule_for_day = false := by simpa using hp
    by_cases hemp : events.isEmpty = true
    · by_cases hok :
        (send_discord (SCHEDULE_HEADER ++ "\nNo NBA games found for today.") w).2 = true
      · simp [post_schedule_once, hp2, hemp, hok,
          send_discord_schedCount, send_discord_halftimeLog]
      · simp [post_schedule_once, hp2, hemp, hok,
          send_discord_schedCount, send_discord_halftimeLog]
    · by_cases hok :
        (send_discord (SCHEDULE_HEADER ++ "\n" ++
          String.intercalate "\n" ((sortEvents events).map (schedule_line now))) w).2 = true
      · simp [post_schedule_once, hp2, hemp, hok,
          send_discord_schedCount, send_discord_halftimeLog]
      · simp [post_schedule_once, hp2, hemp, hok,
          send_discord_schedCount, send_discord_halftimeLog]

/-- The schedule poster only appends to the delivered-message list. -/
theorem post_schedule_once_delivered (now : Int) (events : List Event) (st : BotState) (w : World) :
    w.delivered <+: (post_schedule_once now events st w).w.delivered := by
  by_cases hp : st.posted_schedule_for_day = true
  · simp [post_schedule_once, hp]
  · have hp2 : st.posted_schedule_for_day = false := by simpa using hp
    by_cases hemp : events.isEmpty = true
    · by_cases hok :
        (send_discord (SCHEDULE_HEADER ++ "\nNo NBA games found for today.") w).2 = true
      · simp only [post_schedule_once, hp2, hemp, hok, if_true, if_false, Bool.false_eq_true]
        simpa using send_discord_delivered_pre _ w
      · simp only [post_schedule_once, hp2, hemp, hok, if_true, if_false, Bool.false_eq_true]
        simpa using send_discord_delivered_pre _ w
    · by_cases hok :
        (send_discord (SCHEDULE_HEADER ++ "\n" ++
          String.intercalate "\n" ((sortEvents events).map (schedule_line now))) w).2 = true
      · simp only [post_schedule_once, hp2, hemp, hok, if_true, if_false, Bool.false_eq_true]
        simpa using send_discord_delivered_pre _ w
      · simp only [post_schedule_once, hp2, hemp, hok, if_true, if_false, Bool.false_eq_true]
        simpa using send_discord_delivered_pre _ w

/-- The halftime alert loop only appends to the delivered-message list. -/
theorem halftime_scan_delivered (es : List Event) :
    ∀ (st : BotState) (w : World), w.delivered <+: (halftime_scan es st w).w.delivered := by
  induction es with
  | nil => intro st w; simp [halftime_scan]
  | cons e rest ih =>
    intro st w
    rcases he : e.id with _ | gid
    · rw [halftime_scan_cons_noid e rest st w he]
      exact ih st w
    · by_cases hcond : (is_halftime e && !(st.alerted.contains gid)) = true
      · by_cases hok : (send_discord (halftime_msg e) w).2 = true
        · rw [halftime_scan_cons_alert e rest st w gid he hcond hok]
          refine List.IsPrefix.trans ?_ (ih _ _)
          simpa using send_discord_delivered_pre (halftime_msg e) w
        · rw [halftime_scan_cons_fail e rest st w gid he hcond (by simpa using hok)]
          simpa using send_discord_delivered_pre (halftime_msg e) w
      · rw [halftime_scan_cons_skip e rest st w gid he (by simpa using hcond)]
        exact ih st w

/-- Unfolding a check cycle whose fetch raised. -/
theorem check_games_none (now : Int) (st : BotState) (w : World) :
    check_games none now st w = ⟨st, w, true⟩ := rfl

/-- Combined properties of one check cycle, for a fixed game id g, chaining
the schedule poster and the halftime alert loop. -/
theorem check_games_spec (g : String) (f : Option (List Event)) (now : Int)
    (st : BotState) (w : World) :
    (check_games f now st w).st.last_day = st.last_day ∧
    (g ∈ st.alerted → g ∈ (check_games f now st w).st.alerted) ∧
    w.halftimeLog.count g ≤ (check_games f now st w).w.halftimeLog.count g ∧
    (g ∈ st.alerted →
      (check_games f now st w).w.halftimeLog.count g = w.halftimeLog.count g) ∧
    ((check_games f now st w).w.halftimeLog.count g ≤
      w.halftimeLog.count g + (if g ∈ st.alerted then 0 else 1)) ∧
    (w.halftimeLog.count g < (check_games f now st w).w.halftimeLog.count g →
      g ∈ (check_games f now st w).st.alerted) ∧
    (g ∈ (check_games f now st w).st.alerted →
      g ∈ st.alerted ∨
        w.halftimeLog.count g < (check_games f now st w).w.halftimeLog.count g) ∧
    w.schedCount ≤ (check_games f now st w).w.schedCount ∧
    ((check_games f now st w).w.schedCount ≤
      w.schedCount + (if st.posted_schedule_for_day then 0 else 1)) ∧
    (st.posted_schedule_for_day = true →
      (check_games f now st w).st.posted_schedule_for_day = true ∧
        (check_games f now st w).w.schedCount = w.schedCount) ∧
    (w.schedCount < (check_games f now st w).w.schedCount →
      (check_games f now st w).st.posted_schedule_for_day = true) ∧
    ((check_games f now st w).st.posted_schedule_for_day = true →
      st.posted_schedule_for_day = true ∨
        w.schedCount < (check_games f now st w).w.schedCount) := by
  match f with
  | none => simp [check_games]
  | some events =>
    obtain ⟨p1, p2, p3, p4, p5, p6, p7, p8, p9⟩ := post_schedule_once_spec now events st w
    by_cases hr : (post_schedule_once now events st w).raised = true
    · have hred : check_games (some events) now st w = post_schedule_once now events st w := by
        simp only [check_games]
        rw [if_pos hr]
      rw [hred]
      refine ⟨p2, ?_, ?_, ?_, ?_, ?_, ?_, p4, p6, ?_, p7, p8⟩
      · intro h; rw [p1]; exact h
      · rw [p3]
      · intro _; rw [p3]
      · rw [p3]
        by_cases hm : g ∈ st.alerted <;> simp [hm]
      · intro h; rw [p3] at h; exact absurd h (lt_irrefl _)
      · intro h; rw [p1] at h; exact Or.inl h
      · intro h
        have h1 : (post_schedule_once now events st w).st.posted_schedule_for_day = true := by
          rw [p5 h]; exact h
        have h2 : (post_schedule_once now events st w).w.schedCount = w.schedCount := by
          rw [p5 h]
        exact ⟨h1, h2⟩
    · have hred : check_games (some events) now st w =
          halftime_scan events (post_schedule_once now events st w).st
            (post_schedule_once now events st w).w := by
        simp only [check_games]
        rw [if_neg hr]
      rw [hred]
      obtain ⟨s1, s2, s3, s4, s5, s6, s7, s8, s9⟩ :=
        halftime_scan_spec g events (post_schedule_once now events st w).st
          (post_schedule_once now events st w).w
      rw [p3] at s5 s6 s7 s8 s9
      rw [p1] at s4 s6 s7 s9
      refine ⟨by rw [s1, p2], s4, s5, s6, s7, s8, s9, ?_, ?_, ?_, ?_, ?_⟩
      · rw [s3]; exact p4
      · rw [s3]; exact p6
      · intro h
        have h1 : (post_schedule_once now events st w).st.posted_schedule_for_day = true := by
          rw [p5 h]; exact h
        have h2 : (post_schedule_once now events st w).w.schedCount = w.schedCount := by
          rw [p5 h]
        rw [s2, s3, h2]
        exact ⟨h1, rfl⟩
      · intro h
        rw [s3] at h
        rw [s2]
        exact p7 h
      · intro h
        rw [s2] at h
        rw [s3]
        exact p8 h

/-- One check cycle only appends to the delivered-message list. -/
theorem check_games_delivered (f : Option (List Event)) (now : Int) (st : BotState) (w : World) :
    w.delivered <+: (check_games f now st w).w.delivered := by
  match f with
  | none => simp [check_games]
  | some events =>
    by_cases hr : (post_schedule_once now events st w).raised = true
    · have hred : check_games (some events) now st w = post_schedule_once now events st w := by
        simp only [check_games]
        rw [if_pos hr]
      rw [hred]
      exact post_schedule_once_delivered now events st w
    · have hred : check_games (some events) now st w =
          halftime_scan events (post_schedule_once now events st w).st
            (post_schedule_once now events st w).w := by
        simp only [check_games]
        rw [if_neg hr]
      rw [hred]
      exact List.IsPrefix.trans (post_schedule_once_delivered now events st w)
        (halftime_scan_delivered events _ _)

/-- Unfolding one loop iteration when the date has not changed. -/
theorem tick_steady (inp : TickInput) (st : BotState) (h : inp.today = st.last_day) :
    tick inp st = ((check_games inp.fetch inp.now st ⟨inp.outcomes, [], [], 0⟩).st,
                   (check_games inp.fetch inp.now st ⟨inp.outcomes, [], [], 0⟩).w) := by
  simp only [tick]
  rw [if_neg (fun hne => hne h)]

/-- Unfolding one loop iteration on a day rollover: the result depends only on
the tick input, the whole previous state being discarded. -/
theorem tick_roll (inp : TickInput) (st : BotState) (h : inp.today ≠ st.last_day) :
    tick inp st = rollover_tick inp := by
  simp only [tick]
  rw [if_pos h]

/-- Unfolding the rollover branch when the reset notice delivery raises. -/
theorem rollover_tick_fail (inp : TickInput)
    (hok : (send_discord RESET_MSG ⟨inp.outcomes, [], [], 0⟩).2 = false) :
    rollover_tick inp =
      (⟨[], inp.today, false⟩, (send_discord RESET_MSG ⟨inp.outcomes, [], [], 0⟩).1) := by
  simp only [rollover_tick]
  rw [if_neg (by simp [hok])]

/-- Unfolding the rollover branch when the reset notice is delivered but the
following check cycle raises. -/
theorem rollover_tick_raised (inp : TickInput)
    (hok : (send_discord RESET_MSG ⟨inp.outcomes, [], [], 0⟩).2 = true)
    (hr : (check_games inp.fetch inp.now ⟨[], inp.today, false⟩
            (send_discord RESET_MSG ⟨inp.outcomes, [], [], 0⟩).1).raised = true) :
    rollover_tick inp =
      ((check_games inp.fetch inp.now ⟨[], inp.today, false⟩
          (send_discord RESET_MSG ⟨inp.outcomes, [], [], 0⟩).1).st,
       (check_games inp.fetch inp.now ⟨[], inp.today, false⟩
          (send_discord RESET_MSG ⟨inp.outcomes, [], [], 0⟩).1).w) := by
  simp only [rollover_tick]
  rw [if_pos hok, if_pos hr]

/-- Unfolding the rollover branch when the reset notice is delivered and the
rollover check cycle completes: the unconditional check cycle runs next. -/
theorem rollover_tick_twice (inp : TickInput)
    (hok : (send_discord RESET_MSG ⟨inp.outcomes, [], [], 0⟩).2 = true)
    (hr : (check_games inp.fetch inp.now ⟨[], inp.today, false⟩
            (send_discord RESET_MSG ⟨inp.outcomes, [], [], 0⟩).1).raised = false) :
    rollover_tick inp =
      ((check_games inp.fetch inp.now
          (check_games inp.fetch inp.now ⟨[], inp.today, false⟩
            (send_discord RESET_MSG ⟨inp.outcomes, [], [], 0⟩).1).st
          (check_games inp.fetch inp.now ⟨[], inp.today, false⟩
            (send_discord RESET_MSG ⟨inp.outcomes, [], [], 0⟩).1).w).st,
       (check_games inp.fetch inp.now
          (check_games inp.fetch inp.now ⟨[], inp.today, false⟩
            (send_discord RESET_MSG ⟨inp.outcomes, [], [], 0⟩).1).st
          (check_games inp.fetch inp.now ⟨[], inp.today, false⟩
            (send_discord RESET_MSG ⟨inp.outcomes, [], [], 0⟩).1).w).w) := by
  simp only [rollover_tick]
  rw [if_pos hok, if_neg (by simp [hr])]

/-- Two consecutive check cycles from a state in which g is unalerted and the
schedule flag is clear deliver at most one alert for g and at most one
schedule summary, and record whatever they delivered. -/
theorem check_twice_spec (g : String) (f : Option (List Event)) (now : Int)
    (st : BotState) (w : World)
    (hst : g ∉ st.alerted) (hp : st.posted_schedule_for_day = false)
    (hw : w.halftimeLog.count g = 0) (hws : w.schedCount = 0) :
    (check_games f now (check_games f now st w).st
        (check_games f now st w).w).w.halftimeLog.count g ≤ 1 ∧
    (0 < (check_games f now (check_games f now st w).st
        (check_games f now st w).w).w.halftimeLog.count g →
      g ∈ (check_games f now (check_games f now st w).st
        (check_games f now st w).w).st.alerted) ∧
    (check_games f now (check_games f now st w).st
        (check_games f now st w).w).w.schedCount ≤ 1 ∧
    (0 < (check_games f now (check_games f now st w).st
        (check_games f now st w).w).w.schedCount →
      (check_games f now (check_games f now st w).st
        (check_games f now st w).w).st.posted_schedule_for_day = true) ∧
    (check_games f now (check_games f now st w).st
        (check_games f now st w).w).st.last_day = st.last_day := by
  obtain ⟨c1, c2, c3, c4, c5, c6, c7, c8, c9, c10, c11, c12⟩ := check_games_spec g f now st w
  obtain ⟨d1, d2, d3, d4, d5, d6, d7, d8, d9, d10, d11, d12⟩ :=
    check_games_spec g f now (check_games f now st w).st (check_games f now st w).w
  rw [hw] at c3 c4 c5 c6
  rw [hws] at c8 c9 c11
  rw [if_neg hst] at c5
  rw [if_neg (by simp [hp])] at c9
  refine ⟨?_, ?_, ?_, ?_, by rw [d1, c1]⟩
  · by_cases hm : g ∈ (check_games f now st w).st.alerted
    · have := d4 hm
      omega
    · have hz : ¬(0 < (check_games f now st w).w.halftimeLog.count g) :=
      fun h => hm (c6 h)
      rw [if_neg hm] at d5
      omega
  · intro h
    by_cases hlt : (check_games f now st w).w.halftimeLog.count g <
        (check_games f now (check_games f now st w).st
          (check_games f now st w).w).w.halftimeLog.count g
    · exact d6 hlt
    · exact d2 (c6 (by omega))
  · by_cases hpm : (check_games f now st w).st.posted_schedule_for_day = true
    · have := (d10 hpm).2
      omega
    · have hz : ¬(0 < (check_games f now st w).w.schedCount) :=
        fun h => hpm (c11 h)
      rw [if_neg hpm] at d9
      omega
  · intro h
    by_cases hlt : (check_games f now st w).w.schedCount <
        (check_games f now (check_games f now st w).st
          (check_games f now st w).w).w.schedCount
    · exact d11 hlt
    · exact (d10 (c11 (by omega))).1

/-- Combined properties of a rollover iteration: the tracked day becomes the
new date; at most one halftime alert for g and at most one schedule summary
are delivered; a delivered alert or summary is recorded in the new state. -/
theorem rollover_tick_spec (g : String) (inp : TickInput) :
    (rollover_tick inp).1.last_day = inp.today ∧
    (rollover_tick inp).2.halftimeLog.count g ≤ 1 ∧
    (0 < (rollover_tick inp).2.halftimeLog.count g → g ∈ (rollover_tick inp).1.alerted) ∧
    (rollover_tick inp).2.schedCount ≤ 1 ∧
    (0 < (rollover_tick inp).2.schedCount →
      (rollover_tick inp).1.posted_schedule_for_day = true) := by
  have hlog : (send_discord RESET_MSG ⟨inp.outcomes, [], [], 0⟩).1.halftimeLog = [] :=
    send_discord_halftimeLog _ _
  have hsc : (send_discord RESET_MSG ⟨inp.outcomes, [], [], 0⟩).1.schedCount = 0 :=
    send_discord_schedCount _ _
  by_cases hok : (send_discord RESET_MSG ⟨inp.outcomes, [], [], 0⟩).2 = true
  · by_cases hr : (check_games inp.fetch inp.now ⟨[], inp.today, false⟩
        (send_discord RESET_MSG ⟨inp.outcomes, [], [], 0⟩).1).raised = true
    · obtain ⟨c1, c2, c3, c4, c5, c6, c7, c8, c9, c10, c11, c12⟩ :=
        check_games_spec g inp.fetch inp.now ⟨[], inp.today, false⟩
          (send_discord RESET_MSG ⟨inp.outcomes, [], [], 0⟩).1
      dsimp only at c1 c5 c6 c9 c11
      rw [hlog] at c5 c6
      rw [hsc] at c9 c11
      rw [List.count_nil, if_neg (List.not_mem_nil g)] at c5
      rw [List.count_nil] at c6
      rw [if_neg (by simp)] at c9
      rw [rollover_tick_raised inp hok hr]
      dsimp only
      exact ⟨c1, by omega, c6, by omega, c11⟩
    · obtain ⟨t1, t2, t3, t4, t5⟩ :=
        check_twice_spec g inp.fetch inp.now ⟨[], inp.today, false⟩
          (send_discord RESET_MSG ⟨inp.outcomes, [], [], 0⟩).1
          (List.not_mem_nil g) rfl (by rw [hlog]; rfl) hsc
      dsimp only at t5
      rw [rollover_tick_twice inp hok (by simpa using hr)]
      dsimp only
      exact ⟨t5, t1, t2, t3, t4⟩
  · rw [rollover_tick_fail inp (by simpa using hok)]
    dsimp only
    refine ⟨rfl, ?_, ?_, ?_, ?_⟩
    · rw [hlog]; simp
    · rw [hlog]; simp
    · rw [hsc]; simp
    · rw [hsc]; simp

/-- Combined properties of one loop iteration: the tracked day becomes the
current date; at most one halftime alert for g and at most one schedule
summary are delivered; delivered notifications are recorded in the state; and
on a steady-state iteration an id already alerted (resp. a schedule already
posted) produces no further delivery and stays recorded. -/
theorem tick_spec (g : String) (inp : TickInput) (st : BotState) :
    (tick inp st).1.last_day = inp.today ∧
    (tick inp st).2.halftimeLog.count g ≤ 1 ∧
    (0 < (tick inp st).2.halftimeLog.count g → g ∈ (tick inp st).1.alerted) ∧
    (tick inp st).2.schedCount ≤ 1 ∧
    (0 < (tick inp st).2.schedCount → (tick inp st).1.posted_schedule_for_day = true) ∧
    (inp.today = st.last_day → g ∈ st.alerted →
      (tick inp st).2.halftimeLog.count g = 0 ∧ g ∈ (tick inp st).1.alerted) ∧
    (inp.today = st.last_day → st.posted_schedule_for_day = true →
      (tick inp st).2.schedCount = 0 ∧ (tick inp st).1.posted_schedule_for_day = true) := by
  by_cases hroll : inp.today = st.last_day
  · rw [tick_steady inp st hroll]
    obtain ⟨c1, c2, c3, c4, c5, c6, c7, c8, c9, c10, c11, c12⟩ :=
      check_games_spec g inp.fetch inp.now st ⟨inp.outcomes, [], [], 0⟩
    dsimp only at c3 c4 c5 c6 c8 c9 c10 c11
    rw [List.count_nil] at c4 c5 c6
    dsimp only
    refine ⟨by rw [c1]; exact hroll.symm, ?_, c6, ?_, c11, ?_, ?_⟩
    · by_cases hm : g ∈ st.alerted
      · rw [if_pos hm] at c5; omega
      · rw [if_neg hm] at c5; omega
    · by_cases hp : st.posted_schedule_for_day = true
      · rw [if_pos hp] at c9; omega
      · rw [if_neg hp] at c9; omega
    · intro _ hmem
      exact ⟨c4 hmem, c2 hmem⟩
    · intro _ hp
      exact ⟨(c10 hp).2, (c10 hp).1⟩
  · rw [tick_roll inp st hroll]
    obtain ⟨r1, r2, r3, r4, r5⟩ := rollover_tick_spec g inp
    exact ⟨r1, r2, r3, r4, r5,
      fun h => absurd h hroll, fun h => absurd h hroll⟩

/-- Unfolding the loop on an empty input list. -/
theorem run_nil (st : BotState) : run [] st = (st, [], 0) := rfl

/-- Unfolding the loop on one more tick. -/
theorem run_cons (inp : TickInput) (rest : List TickInput) (st : BotState) :
    run (inp :: rest) st =
      ((run rest (tick inp st).1).1,
       (tick inp st).2.halftimeLog ++ (run rest (tick inp st).1).2.1,
       (tick inp st).2.schedCount + (run rest (tick inp st).1).2.2) := rfl

/-- Unfolding one steady-state iteration whose fetch raises: the exception is
caught, the state is unchanged and nothing is delivered. -/
theorem tick_fetch_none (inp : TickInput) (st : BotState)
    (hf : inp.fetch = none) (hd : inp.today = st.last_day) :
    tick inp st = (st, ⟨inp.outcomes, [], [], 0⟩) := by
  rw [tick_steady inp st hd, hf, check_games_none]

/-- A steady-state iteration whose fetch raises is invisible to the rest of
the loop. -/
theorem run_fetch_none_cons (inp : TickInput) (rest : List TickInput) (st : BotState)
    (hf : inp.fetch = none) (hd : inp.today = st.last_day) :
    run (inp :: rest) st = run rest st := by
  rw [run_cons, tick_fetch_none inp st hf hd]
  dsimp only
  rw [List.nil_append, Nat.zero_add]

/-- Within one calendar day, an id recorded in alerted_games stays recorded,
the tracked day is unchanged, and no further alert for it is delivered. -/
theorem run_day_keep (d : Int) (g : String) (inps : List TickInput) :
    ∀ st : BotState, (∀ i ∈ inps, i.today = d) → st.last_day = d → g ∈ st.alerted →
      (run inps st).1.last_day = d ∧ g ∈ (run inps st).1.alerted ∧
        (run inps st).2.1.count g = 0 := by
  induction inps with
  | nil =>
    intro st _ h1 h2
    exact ⟨h1, h2, rfl⟩
  | cons inp rest ih =>
    intro st hall h1 h2
    have hinp : inp.today = d := hall inp (by simp)
    have hrest : ∀ i ∈ rest, i.today = d := fun i hi => hall i (by simp [hi])
    obtain ⟨t1, t2, t3, t4, t5, t6, t7⟩ := tick_spec g inp st
    have hm := t6 (by rw [hinp, h1]) h2
    rw [run_cons]
    dsimp only
    obtain ⟨k1, k2, k3⟩ := ih (tick inp st).1 hrest (by rw [t1, hinp]) hm.2
    refine ⟨k1, k2, ?_⟩
    rw [List.count_append, hm.1, k3]

/-- Within one calendar day, at most one halftime alert is delivered for a
given game id over any sequence of iterations. -/
theorem run_day_count (d : Int) (g : String) (inps : List TickInput) :
    ∀ st : BotState, (∀ i ∈ inps, i.today = d) → (run inps st).2.1.count g ≤ 1 := by
  induction inps with
  | nil =>
    intro st _
    simp [run_nil]
  | cons inp rest ih =>
    intro st hall
    have hinp : inp.today = d := hall inp (by simp)
    have hrest : ∀ i ∈ rest, i.today = d := fun i hi => hall i (by simp [hi])
    obtain ⟨t1, t2, t3, t4, t5, t6, t7⟩ := tick_spec g inp st
    rw [run_cons]
    dsimp only
    rw [List.count_append]
    by_cases htc : 0 < (tick inp st).2.halftimeLog.count g
    · obtain ⟨k1, k2, k3⟩ :=
        run_day_keep d g rest (tick inp st).1 hrest (by rw [t1, hinp]) (t3 htc)
      omega
    · have hz : (tick inp st).2.halftimeLog.count g = 0 := by omega
      have := ih (tick inp st).1 hrest
      omega

/-- Within one calendar day, a set schedule flag stays set, the tracked day is
unchanged, and no further schedule summary is delivered. -/
theorem run_day_keep_sched (d : Int) (inps : List TickInput) :
    ∀ st : BotState, (∀ i ∈ inps, i.today = d) → st.last_day = d →
      st.posted_schedule_for_day = true →
      (run inps st).1.last_day = d ∧ (run inps st).1.posted_schedule_for_day = true ∧
        (run inps st).2.2 = 0 := by
  induction inps with
  | nil =>
    intro st _ h1 h2
    exact ⟨h1, h2, rfl⟩
  | cons inp rest ih =>
    intro st hall h1 h2
    have hinp : inp.today = d := hall inp (by simp)
    have hrest : ∀ i ∈ rest, i.today = d := fun i hi => hall i (by simp [hi])
    obtain ⟨t1, t2, t3, t4, t5, t6, t7⟩ := tick_spec "" inp st
    have hm := t7 (by rw [hinp, h1]) h2
    rw [run_cons]
    dsimp only
    obtain ⟨k1, k2, k3⟩ := ih (tick inp st).1 hrest (by rw [t1, hinp]) hm.2
    refine ⟨k1, k2, ?_⟩
    rw [hm.1, k3]

/-- Within one calendar day, at most one schedule summary is delivered over
any sequence of iterations. -/
theorem run_day_sched_count (d : Int) (inps : List TickInput) :
    ∀ st : BotState, (∀ i ∈ inps, i.today = d) → (run inps st).2.2 ≤ 1 := by
  induction inps with
  | nil =>
    intro st _
    simp [run_nil]
  | cons inp rest ih =>
    intro st hall
    have hinp : inp.today = d := hall inp (by simp)
    have hrest : ∀ i ∈ rest, i.today = d := fun i hi => hall i (by simp [hi])
    obtain ⟨t1, t2, t3, t4, t5, t6, t7⟩ := tick_spec "" inp st
    rw [run_cons]
    dsimp only
    by_cases htc : 0 < (tick inp st).2.schedCount
    · obtain ⟨k1, k2, k3⟩ :=
        run_day_keep_sched d rest (tick inp st).1 hrest (by rw [t1, hinp]) (t5 htc)
      omega
    · have := ih (tick inp st).1 hrest
      omega

/-- Ceiling of s/60 over the rationals agrees with the rounding-up integer
division (s + 59) / 60 computed by the code. -/
theorem ceil_div_sixty (s : Int) : (⌈(s : ℚ) / 60⌉ : Int) = (s + 59) / 60 := by
  rw [Int.ceil_eq_iff]
  constructor
  · rw [lt_div_iff₀ (by norm_num : (0:ℚ) < 60)]
    have hq : ((s + 59) / 60 : Int) * 60 - 60 < s := by omega
    calc ((((s + 59) / 60 : Int) : ℚ) - 1) * 60
        = (((s + 59) / 60 : Int) * 60 - 60 : Int) := by push_cast; ring
      _ < (s : ℚ) := by exact_mod_cast hq
  · rw [div_le_iff₀ (by norm_num : (0:ℚ) < 60)]
    have hq : s ≤ ((s + 59) / 60 : Int) * 60 := by omega
    calc (s : ℚ) ≤ (((s + 59) / 60 : Int) * 60 : Int) := by exact_mod_cast hq
      _ = (((s + 59) / 60 : Int) : ℚ) * 60 := by push_cast; ring

/-- The countdown formatter depends only on the difference of its arguments. -/
theorem format_time_until_shift (a k : Int) :
    format_time_until (a + k) a = format_time_until k 0 := by
  simp only [format_time_until, add_sub_cancel_left, sub_zero]

/-- A single-record alert pass that raised left the state unchanged: the only
raise site is the delivery of that very record, and alerted_games is extended
only after a delivery succeeded. -/
theorem halftime_scan_singleton_raised (e : Event) (st : BotState) (w : World)
    (h : (halftime_scan [e] st w).raised = true) :
    (halftime_scan [e] st w).st = st := by
  rcases he : e.id with _ | gid
  · rw [halftime_scan_cons_noid e [] st w he] at h ⊢
    simp [halftime_scan_nil] at h
  · by_cases hcond : (is_halftime e && !(st.alerted.contains gid)) = true
    · by_cases hok : (send_discord (halftime_msg e) w).2 = true
      · rw [halftime_scan_cons_alert e [] st w gid he hcond hok] at h
        simp [halftime_scan_nil] at h
      · rw [halftime_scan_cons_fail e [] st w gid he hcond (by simpa using hok)]
    · rw [halftime_scan_cons_skip e [] st w gid he (by simpa using hcond)] at h ⊢
      simp [halftime_scan_nil] at h

/-! Claim theorems. -/

/-- C1: for every sequence of poll-loop ticks within one local calendar day
and every game id, at most one halftime alert for that id is delivered; an
alert is delivered only for an id not in alerted_games (a steady-state tick
with the id already recorded delivers nothing), and a delivered alert leaves
the id recorded in alerted_games. -/
theorem C1_halftime_alert_once_per_day
    (d : Int) (g : String) (st0 : BotState) (inps : List TickInput)
    (inp1 : TickInput) (st1 : BotState) (inp2 : TickInput) (st2 : BotState)
    (hday : ∀ i ∈ inps, i.today = d)
    (h1 : inp1.today = st1.last_day) (h2 : g ∈ st1.alerted)
    (h3 : 0 < (tick inp2 st2).2.halftimeLog.count g) :
    (run inps st0).2.1.count g ≤ 1 ∧
    (tick inp1 st1).2.halftimeLog.count g = 0 ∧
    g ∈ (tick inp2 st2).1.alerted := by
  obtain ⟨-, -, -, -, -, t6, -⟩ := tick_spec g inp1 st1
  obtain ⟨-, -, u3, -, -, -, -⟩ := tick_spec g inp2 st2
  exact ⟨run_day_count d g inps st0 hday, (t6 h1 h2).1, u3 h3⟩

/-- C1 witness: a two-tick day in which the sample game reaches halftime on
both ticks, starting from a fresh state. -/
theorem C1_halftime_alert_once_per_day_witness :
    (run [⟨1, 0, some [sampleHalftimeEvent], []⟩, ⟨1, 0, some [sampleHalftimeEvent], []⟩]
        ⟨[], 1, false⟩).2.1.count "401" ≤ 1 ∧
    (tick ⟨1, 0, some [sampleHalftimeEvent], []⟩ ⟨["401"], 1, false⟩).2.halftimeLog.count "401" = 0 ∧
    "401" ∈ (tick ⟨1, 0, some [sampleHalftimeEvent], []⟩ ⟨[], 1, false⟩).1.alerted :=
  C1_halftime_alert_once_per_day 1 "401" ⟨[], 1, false⟩
    [⟨1, 0, some [sampleHalftimeEvent], []⟩, ⟨1, 0, some [sampleHalftimeEvent], []⟩]
    ⟨1, 0, some [sampleHalftimeEvent], []⟩ ⟨["401"], 1, false⟩
    ⟨1, 0, some [sampleHalftimeEvent], []⟩ ⟨[], 1, false⟩
    (by decide) (by decide) (by decide) (by decide)

/-- C2: a steady-state tick whose fetch raises is caught by the except clause
of the loop body: the state is unchanged and nothing is delivered, the next
tick runs exactly as it would have without the failed tick, and no previously
recorded halftime alert is delivered again. -/
theorem C2_tick_failure_isolated
    (inpN : TickInput) (rest : List TickInput) (st : BotState)
    (g : String) (inp3 : TickInput) (st3 : BotState)
    (hf : inpN.fetch = none) (hd : inpN.today = st.last_day)
    (h3 : inp3.today = st3.last_day) (hg : g ∈ st3.alerted) :
    tick inpN st = (st, ⟨inpN.outcomes, [], [], 0⟩) ∧
    run (inpN :: rest) st = run rest st ∧
    (tick inp3 st3).2.halftimeLog.count g = 0 := by
  obtain ⟨-, -, -, -, -, t6, -⟩ := tick_spec g inp3 st3
  exact ⟨tick_fetch_none inpN st hf hd, run_fetch_none_cons inpN rest st hf hd,
    (t6 h3 hg).1⟩

/-- C2 witness: a fetch-failing tick followed by a successful tick of the
same day, with one game already alerted. -/
theorem C2_tick_failure_isolated_witness :
    tick ⟨1, 5, none, []⟩ ⟨["401"], 1, true⟩ = (⟨["401"], 1, true⟩, ⟨[], [], [], 0⟩) ∧
    run [⟨1, 5, none, []⟩, ⟨1, 9, some [sampleHalftimeEvent], []⟩] ⟨["401"], 1, true⟩ =
      run [⟨1, 9, some [sampleHalftimeEvent], []⟩] ⟨["401"], 1, true⟩ ∧
    (tick ⟨1, 9, some [sampleHalftimeEvent], []⟩ ⟨["401"], 1, true⟩).2.halftimeLog.count "401" = 0 :=
  C2_tick_failure_isolated ⟨1, 5, none, []⟩ [⟨1, 9, some [sampleHalftimeEvent], []⟩]
    ⟨["401"], 1, true⟩ "401" ⟨1, 9, some [sampleHalftimeEvent], []⟩ ⟨["401"], 1, true⟩
    (by decide) (by decide) (by decide) (by decide)

/-- C3: within one local calendar day at most one schedule summary is
delivered; once the flag is set, a steady-state tick delivers no summary and
keeps the flag set; and a delivered summary always leaves the flag set. -/
theorem C3_schedule_once_per_day
    (d : Int) (st0 : BotState) (inps : List TickInput)
    (inp1 : TickInput) (st1 : BotState) (inp2 : TickInput) (st2 : BotState)
    (hday : ∀ i ∈ inps, i.today = d)
    (h1 : inp1.today = st1.last_day) (h2 : st1.posted_schedule_for_day = true)
    (h3 : 0 < (tick inp2 st2).2.schedCount) :
    (run inps st0).2.2 ≤ 1 ∧
    (tick inp1 st1).2.schedCount = 0 ∧
    (tick inp1 st1).1.posted_schedule_for_day = true ∧
    (tick inp2 st2).1.posted_schedule_for_day = true := by
  obtain ⟨-, -, -, -, -, -, t7⟩ := tick_spec "" inp1 st1
  obtain ⟨-, -, -, -, u5, -, -⟩ := tick_spec "" inp2 st2
  exact ⟨run_day_sched_count d inps st0 hday, (t7 h1 h2).1, (t7 h1 h2).2, u5 h3⟩

/-- C3 witness: a two-tick day posting the schedule once, a tick with the
flag already set, and a tick that actually posts. -/
theorem C3_schedule_once_per_day_witness :
    (run [⟨1, 0, some [sampleScheduledEvent], []⟩, ⟨1, 60, some [sampleScheduledEvent], []⟩]
        ⟨[], 1, false⟩).2.2 ≤ 1 ∧
    (tick ⟨1, 0, some [sampleScheduledEvent], []⟩ ⟨[], 1, true⟩).2.schedCount = 0 ∧
    (tick ⟨1, 0, some [sampleScheduledEvent], []⟩ ⟨[], 1, true⟩).1.posted_schedule_for_day = true ∧
    (tick ⟨1, 0, some [sampleScheduledEvent], []⟩ ⟨[], 1, false⟩).1.posted_schedule_for_day = true :=
  C3_schedule_once_per_day 1 ⟨[], 1, false⟩
    [⟨1, 0, some [sampleScheduledEvent], []⟩, ⟨1, 60, some [sampleScheduledEvent], []⟩]
    ⟨1, 0, some [sampleScheduledEvent], []⟩ ⟨[], 1, true⟩
    ⟨1, 0, some [sampleScheduledEvent], []⟩ ⟨[], 1, false⟩
    (by decide) (by decide) (by decide) (by decide)

/-- C4: a tick whose date differs from last_day is exactly the rollover
sequence, which depends only on the tick input: alerted_games is cleared, the
schedule flag reset and last_day updated before anything else, the reset
notice is the first delivered message, and the following full check cycle can
re-alert a game that was already alerted the previous day (here it ends as
the only recorded id). -/
theorem C4_day_rollover_resets
    (inp : TickInput) (st : BotState) (g : String) (e : Event)
    (hroll : inp.today ≠ st.last_day)
    (hout : inp.outcomes = [])
    (hfetch : inp.fetch = some [e])
    (hid : e.id = some g)
    (hhalf : is_halftime e = true)
    (hmem : g ∈ st.alerted) :
    tick inp st = rollover_tick inp ∧
    (tick inp st).1.last_day = inp.today ∧
    (tick inp st).2.delivered.head? = some RESET_MSG ∧
    (tick inp st).1.alerted = [g] ∧
    (tick inp st).2.halftimeLog = [g] ∧
    (tick inp st).1.posted_schedule_for_day = true := by
  have ht := tick_roll inp st hroll
  have hcomp : rollover_tick inp =
      (⟨[g], inp.today, true⟩,
       ⟨[], [RESET_MSG,
             SCHEDULE_HEADER ++ "\n" ++
               String.intercalate "\n" ((sortEvents [e]).map (schedule_line inp.now)),
             halftime_msg e], [g], 1⟩) := by
    simp [rollover_tick, hout, hfetch, check_games, post_schedule_once, halftime_scan,
          send_discord, hid, hhalf]
  rw [ht, hcomp]
  exact ⟨rfl, rfl, rfl, rfl, rfl, rfl⟩

/-- C4 witness: the sample game alerted on day 1 alerts again on the rollover
tick of day 2. -/
theorem C4_day_rollover_resets_witness :
    tick ⟨2, 0, some [sampleHalftimeEvent], []⟩ ⟨["401"], 1, true⟩ =
      rollover_tick ⟨2, 0, some [sampleHalftimeEvent], []⟩ ∧
    (tick ⟨2, 0, some [sampleHalftimeEvent], []⟩ ⟨["401"], 1, true⟩).1.last_day = 2 ∧
    (tick ⟨2, 0, some [sampleHalftimeEvent], []⟩
        ⟨["401"], 1, true⟩).2.delivered.head? = some RESET_MSG ∧
    (tick ⟨2, 0, some [sampleHalftimeEvent], []⟩ ⟨["401"], 1, true⟩).1.alerted = ["401"] ∧
    (tick ⟨2, 0, some [sampleHalftimeEvent], []⟩ ⟨["401"], 1, true⟩).2.halftimeLog = ["401"] ∧
    (tick ⟨2, 0, some [sampleHalftimeEvent], []⟩
        ⟨["401"], 1, true⟩).1.posted_schedule_for_day = true :=
  C4_day_rollover_resets ⟨2, 0, some [sampleHalftimeEvent], []⟩ ⟨["401"], 1, true⟩
    "401" sampleHalftimeEvent
    (by decide) (by decide) (by decide) (by decide) (by decide) (by decide)

/-- C5: state is recorded only after the corresponding delivery succeeded: an
id newly present in alerted_games had its alert delivered, a newly set
schedule flag had its summary delivered, and a raising delivery leaves the
state component unchanged (schedule poster, and single-record alert pass). -/
theorem C5_mutation_only_after_delivery
    (g : String) (es1 : List Event) (st1 : BotState) (w1 : World)
    (now2 : Int) (es2 : List Event) (st2 : BotState) (w2 : World)
    (now3 : Int) (es3 : List Event) (st3 : BotState) (w3 : World)
    (e4 : Event) (st4 : BotState) (w4 : World)
    (h1 : g ∈ (halftime_scan es1 st1 w1).st.alerted) (h2 : g ∉ st1.alerted)
    (h3 : (post_schedule_once now2 es2 st2 w2).st.posted_schedule_for_day = true)
    (h4 : st2.posted_schedule_for_day = false)
    (h5 : (post_schedule_once now3 es3 st3 w3).raised = true)
    (h6 : (halftime_scan [e4] st4 w4).raised = true) :
    w1.halftimeLog.count g < (halftime_scan es1 st1 w1).w.halftimeLog.count g ∧
    w2.schedCount < (post_schedule_once now2 es2 st2 w2).w.schedCount ∧
    (post_schedule_once now3 es3 st3 w3).st = st3 ∧
    (halftime_scan [e4] st4 w4).st = st4 := by
  obtain ⟨-, -, -, -, -, -, -, -, s9⟩ := halftime_scan_spec g es1 st1 w1
  obtain ⟨-, -, -, -, -, -, -, p8, -⟩ := post_schedule_once_spec now2 es2 st2 w2
  obtain ⟨-, -, -, -, -, -, -, -, p9⟩ := post_schedule_once_spec now3 es3 st3 w3
  refine ⟨?_, ?_, p9 h5, halftime_scan_singleton_raised e4 st4 w4 h6⟩
  · rcases s9 h1 with h | h
    · exact absurd h h2
    · exact h
  · rcases p8 h3 with h | h
    · rw [h4] at h
      exact absurd h (by simp)
    · exact h

/-- C5 witness: a delivered alert and a delivered summary from clear state,
plus a failing schedule delivery and a failing alert delivery. -/
theorem C5_mutation_only_after_delivery_witness :
    (⟨[], [], [], 0⟩ : World).halftimeLog.count "401" <
      (halftime_scan [sampleHalftimeEvent] ⟨[], 1, false⟩
        ⟨[], [], [], 0⟩).w.halftimeLog.count "401" ∧
    (⟨[], [], [], 0⟩ : World).schedCount <
      (post_schedule_once 0 [] ⟨[], 1, false⟩ ⟨[], [], [], 0⟩).w.schedCount ∧
    (post_schedule_once 0 [] ⟨[], 1, false⟩ ⟨[false], [], [], 0⟩).st = ⟨[], 1, false⟩ ∧
    (halftime_scan [sampleHalftimeEvent] ⟨[], 1, false⟩ ⟨[false], [], [], 0⟩).st =
      ⟨[], 1, false⟩ :=
  C5_mutation_only_after_delivery "401" [sampleHalftimeEvent] ⟨[], 1, false⟩ ⟨[], [], [], 0⟩
    0 [] ⟨[], 1, false⟩ ⟨[], [], [], 0⟩
    0 [] ⟨[], 1, false⟩ ⟨[false], [], [], 0⟩
    sampleHalftimeEvent ⟨[], 1, false⟩ ⟨[false], [], [], 0⟩
    (by decide) (by decide) (by decide) (by decide) (by decide) (by decide)

/-- C6: a start instant at or before now yields "started"; otherwise the
rendered minute count is the ceiling of the remaining seconds over 60,
formatted with the hours term omitted when zero and the minutes term omitted
when zero; in particular 125 seconds yields "in 3m", 1 second yields "in 1m"
and exactly two hours yields "in 2h". -/
theorem C6_time_until_start
    (start now start2 now2 : Int) (h1 : now < start) (h2 : start2 ≤ now2) :
    format_time_until start2 now2 = "started" ∧
    format_time_until start now = spec_hm ⌈((start - now : Int) : ℚ) / 60⌉ ∧
    format_time_until (now + 125) now = "in 3m" ∧
    format_time_until (now + 1) now = "in 1m" ∧
    format_time_until (now + 7200) now = "in 2h" := by
  refine ⟨?_, ?_, ?_, ?_, ?_⟩
  · have hle : start2 - now2 ≤ 0 := by omega
    simp only [format_time_until]
    rw [if_pos hle]
  · have hpos : ¬(start - now ≤ 0) := by omega
    rw [ceil_div_sixty (start - now)]
    simp only [format_time_until, spec_hm]
    rw [if_neg hpos]
  · rw [format_time_until_shift]
    decide
  · rw [format_time_until_shift]
    decide
  · rw [format_time_until_shift]
    decide

/-- C6 witness: instantiated at a start 125 seconds in the future and a start
in the past. -/
theorem C6_time_until_start_witness :
    format_time_until 0 5 = "started" ∧
    format_time_until 125 0 = spec_hm ⌈((125 - 0 : Int) : ℚ) / 60⌉ ∧
    format_time_until (0 + 125) 0 = "in 3m" ∧
    format_time_until (0 + 1) 0 = "in 1m" ∧
    format_time_until (0 + 7200) 0 = "in 2h" :=
  C6_time_until_start 125 0 0 5 (by decide) (by decide)

/-- C7: is_halftime holds exactly when the status name is STATUS_HALFTIME or
the status detail is the text Halftime; either signal alone suffices and
neither present means false. -/
theorem C7_is_halftime_iff (e : Event) :
    is_halftime e = true ↔
      (e.status.name = some "STATUS_HALFTIME" ∨ e.status.detail = some "Halftime") := by
  simp [is_halftime]

/-- C8: the claim fails on the code: the guard on line 151 reads the unbound
name DISCORD_WEBHOOK (the configured value is bound to WEBHOOK), so the
process dies with NameError for every configured value, including well-formed
ones, and never reaches the startup announcement. -/
theorem C8_validation_always_name_error (url : String) :
    main_validate (some url) = Except.error (PyErr.nameError "DISCORD_WEBHOOK") ∧
    main_validate none = Except.error (PyErr.nameError "DISCORD_WEBHOOK") := by
  have h : name_defined "DISCORD_WEBHOOK" = false := by decide
  constructor <;> simp [main_validate, h]

/-- C9: the claim fails on the code: both message f-strings interpolate the
unbound name PING_USER_ID, so constructing either message raises NameError
and no message with the claimed exact text is ever sent; moreover even with
the name bound, the startup text would carry a trailing mention and differ
from the claimed text. -/
theorem C9_messages_name_error :
    startup_message = Except.error (PyErr.nameError "PING_USER_ID") ∧
    (∀ e : Event, halftime_message e = Except.error (PyErr.nameError "PING_USER_ID")) ∧
    (∀ uid : String, "✅ Halftime bot started. <@" ++ uid ++ ">" ≠ STARTUP_MSG) := by
  have h : PING_USER_ID_binding = none := by decide
  refine ⟨by simp [startup_message, h], fun e => by simp [halftime_message, h], ?_⟩
  intro uid heq
  have hlen := congrArg String.length heq
  have hpre : ("✅ Halftime bot started. <@" : String).length = 26 := by decide
  have hgt : (">" : String).length = 1 := by decide
  have hmsg : STARTUP_MSG.length = 23 := by decide
  rw [String.length_append, String.length_append, hpre, hgt, hmsg] at hlen
  omega

/-- C10: the startup announcement and the immediate first check cycle run
before the loop and outside its exception handler, so a transient failure
there (here: the fetch raising) terminates the process, while the same
failure on a later steady-state tick is swallowed and leaves the loop
unaffected. -/
theorem C10_startup_failure_fatal
    (startInp : TickInput) (loopInps : List TickInput)
    (inpN : TickInput) (rest : List TickInput) (st : BotState)
    (h1 : startInp.fetch = none)
    (h2 : inpN.fetch = none) (h3 : inpN.today = st.last_day) :
    main_run startInp loopInps = Except.error () ∧
    run (inpN :: rest) st = run rest st := by
  refine ⟨?_, run_fetch_none_cons inpN rest st h2 h3⟩
  by_cases hok : (send_discord STARTUP_MSG ⟨startInp.outcomes, [], [], 0⟩).2 = true
  · simp only [main_run]
    rw [if_pos hok, h1, check_games_none]
    dsimp only
    rw [if_pos rfl]
  · simp only [main_run]
    rw [if_neg hok]

/-- C10 witness: a fetch failure during the startup check terminates, the
same failure on a steady-state tick does not. -/
theorem C10_startup_failure_fatal_witness :
    main_run ⟨1, 0, none, []⟩ [] = Except.error () ∧
    run [⟨1, 0, none, []⟩] ⟨[], 1, false⟩ = run [] ⟨[], 1, false⟩ :=
  C10_startup_failure_fatal ⟨1, 0, none, []⟩ [] ⟨1, 0, none, []⟩ [] ⟨[], 1, false⟩
    (by decide) (by decide) (by decide)

end HalftimeBot
